import Mathlib

/-!
# Verification development for the flip-finder pricing & scoring pipeline

Shallow embedding of the pure computation core (net-profit calculator,
V.E.S.T. component scorers, grade & override engine, buy-price solver,
price triangulation fallback, sell-through estimator, search fallback)
over exact rational arithmetic.

JavaScript `number` values are modelled as `ℚ`.  `Math.round` is modelled
by `jsRound` (round half toward positive infinity, which is JavaScript's
behaviour), and the ubiquitous `Math.round(x * 100) / 100` cents-rounding
idiom by `round2`.  Presentation-only string fields that require decimal
formatting of numbers (`description`, `reasoning`, `marketInsight`,
`overrideExplanation`) are omitted from the embedded records; every
numeric field and every branch condition is carried over verbatim.

Where a JavaScript division can produce `NaN`/`Infinity` (a denominator
that is not checked by the source), the embedding offers additional
"checked" definitions in which division is the partial `safeDiv`, so that
`none` marks exactly the places where the source would produce a
non-finite float.
-/

/-- JavaScript `Math.round`: round half toward positive infinity. -/
def jsRound (q : ℚ) : ℤ := ⌊q + 1/2⌋

/-- `Math.round(x * 100) / 100` — rounding a money amount to cents. -/
def round2 (q : ℚ) : ℚ := (jsRound (q * 100) : ℚ) / 100

/-- `Math.round(x * 10) / 10` — rounding to one decimal place. -/
def round1 (q : ℚ) : ℚ := (jsRound (q * 10) : ℚ) / 10

/-- Division that records a zero denominator instead of JavaScript's
`NaN`/`Infinity`: `none` means the source code would have produced a
non-finite float at this point. -/
def safeDiv (a b : ℚ) : Option ℚ := if b = 0 then none else some (a / b)

/-- Substring test, `s.includes(sub)` of JavaScript (on char lists). -/
def charsContain (sub : List Char) : List Char → Bool
  | [] => sub.isEmpty
  | c :: t => sub.isPrefixOf (c :: t) || charsContain sub t

/-- JavaScript `String.prototype.includes`. -/
def strIncludes (s sub : String) : Bool := charsContain sub.toList s.toList

/-! ## Net Profit Calculator (`profit-calculator.ts`) -/

/-- Input record of `calculateNetProfit`.  `none` models an absent
(`undefined`) optional argument. -/
structure ProfitInput where
  expectedSalePrice : ℚ
  buyPrice : ℚ
  shippingCost : Option ℚ := none
  category : Option String := none
  promotedListingRate : Option ℚ := none
deriving Repr

/-- Output record of `calculateNetProfit`. -/
structure ProfitBreakdown where
  expectedSalePrice : ℚ
  ebayFinalValueFee : ℚ
  paymentProcessingFee : ℚ
  shippingCost : ℚ
  promotedListingFee : ℚ
  totalPlatformCosts : ℚ
  buyPrice : ℚ
  netProfit : ℚ
  roi : ℚ
  effectiveMargin : ℚ
deriving Repr, DecidableEq

/-- `SHIPPING_DEFAULTS` table, in declaration (= iteration) order. -/
def SHIPPING_DEFAULTS : List (String × ℚ) :=
  [("electronics-small", 8), ("electronics-large", 15), ("electronics", 10),
   ("audio", 10), ("clothing", 6), ("shoes", 10), ("books", 4), ("media", 4),
   ("home-small", 8), ("home-large", 20), ("home", 10), ("kitchen", 12),
   ("fragile", 12), ("pottery", 15), ("glass", 15), ("collectibles", 8),
   ("toys", 8), ("games", 6), ("sports", 10), ("outdoor", 12), ("default", 8)]

/-- `EBAY_FEE_RATES` table, in declaration (= iteration) order. -/
def EBAY_FEE_RATES : List (String × ℚ) :=
  [("electronics", 0.129), ("clothing", 0.129), ("collectibles", 0.129),
   ("books", 0.1455), ("media", 0.1455), ("music", 0.1455),
   ("movies", 0.1455), ("sports", 0.129), ("toys", 0.129), ("home", 0.129),
   ("default", 0.129)]

/-- The partial-match loop of `getShippingDefault`: first entry whose key
is a substring of the category or vice versa. -/
def shippingPartialMatch (lowerCat : String) : List (String × ℚ) → ℚ
  | [] => 8
  | (key, value) :: rest =>
      if strIncludes lowerCat key || strIncludes key lowerCat then value
      else shippingPartialMatch lowerCat rest

/-- `getShippingDefault`.  The source's exact-match test
`if (SHIPPING_DEFAULTS[lowerCat])` is truthy, so a stored value of `0`
would fall through; every stored value is nonzero, and the embedding
keeps the truthiness test. -/
def getShippingDefault : Option String → ℚ
  | none => 8
  | some category =>
      let lowerCat := category.toLower
      match SHIPPING_DEFAULTS.lookup lowerCat with
      | some v => if v ≠ 0 then v else shippingPartialMatch lowerCat SHIPPING_DEFAULTS
      | none => shippingPartialMatch lowerCat SHIPPING_DEFAULTS

/-- The lookup loop of `getEbayFeeRate`: first entry whose key is a
substring of the lowercased category. -/
def feeRateMatch (lowerCat : String) : List (String × ℚ) → ℚ
  | [] => 0.129
  | (key, value) :: rest =>
      if strIncludes lowerCat key then value else feeRateMatch lowerCat rest

/-- `getEbayFeeRate`. -/
def getEbayFeeRate : Option String → ℚ
  | none => 0.129
  | some category => feeRateMatch category.toLower EBAY_FEE_RATES

/-- `calculateNetProfit`: exact fee-adjusted net profit, every monetary
output rounded to cents at the end. -/
def calculateNetProfit (input : ProfitInput) : ProfitBreakdown :=
  let promotedListingRate := input.promotedListingRate.getD 0
  let shipping := input.shippingCost.getD (getShippingDefault input.category)
  let feeRate := getEbayFeeRate input.category
  let ebayFinalValueFee := (input.expectedSalePrice + shipping) * feeRate
  let paymentProcessingFee := input.expectedSalePrice * 0.029 + 0.30
  let promotedListingFee := input.expectedSalePrice * min promotedListingRate 0.15
  let totalPlatformCosts := ebayFinalValueFee + paymentProcessingFee + promotedListingFee + shipping
  let netProfit := input.expectedSalePrice - totalPlatformCosts - input.buyPrice
  let totalInvestment := input.buyPrice + shipping
  let roi := if totalInvestment > 0 then netProfit / totalInvestment * 100 else 0
  let effectiveMargin := if input.expectedSalePrice > 0 then netProfit / input.expectedSalePrice * 100 else 0
  { expectedSalePrice := round2 input.expectedSalePrice
    ebayFinalValueFee := round2 ebayFinalValueFee
    paymentProcessingFee := round2 paymentProcessingFee
    shippingCost := round2 shipping
    promotedListingFee := round2 promotedListingFee
    totalPlatformCosts := round2 totalPlatformCosts
    buyPrice := round2 input.buyPrice
    netProfit := round2 netProfit
    roi := round2 roi
    effectiveMargin := round2 effectiveMargin }

/-! ## Deal evaluation (`evaluateDeal`) -/

/-- Severity labels of `evaluateDeal`. -/
inductive Severity where
  | success | warning | error
deriving Repr, DecidableEq

/-- `evaluateDeal`: advisory profitability verdict on a breakdown. -/
def evaluateDeal (breakdown : ProfitBreakdown) : Bool × String × Severity :=
  if breakdown.netProfit < 0 then
    (false, "You would lose money on this flip", .error)
  else if breakdown.netProfit < 5 then
    (false, "Profit too low to be worth the effort (< $5)", .warning)
  else if breakdown.roi < 20 then
    (false, "ROI below 20% - capital better used elsewhere", .warning)
  else if breakdown.effectiveMargin < 15 then
    (false, "Margin too thin (< 15%) - risky after fees", .warning)
  else if breakdown.roi ≥ 100 ∧ breakdown.netProfit ≥ 20 then
    (true, "Excellent flip - high ROI and solid profit", .success)
  else if breakdown.roi ≥ 50 then
    (true, "Good flip opportunity", .success)
  else
    (true, "Meets minimum profitability thresholds", .success)

/-! ## Grades (`grade.ts`) -/

/-- The 15-value letter-grade enum (`A+` … `F-`); `p` marks plus, `m`
marks minus. -/
inductive Grade where
  | Ap | A | Am | Bp | B | Bm | Cp | C | Cm | Dp | D | Dm | Fp | F | Fm
deriving Repr, DecidableEq

/-- Buy/pass recommendation enum. -/
inductive Recommendation where
  | strongBuy | buy | hold | pass | strongPass
deriving Repr, DecidableEq

/-- `GRADE_THRESHOLDS`: descending score thresholds, first match wins. -/
def GRADE_THRESHOLDS : List (ℚ × Grade) :=
  [(95, .Ap), (90, .A), (87, .Am),
   (83, .Bp), (80, .B), (77, .Bm),
   (73, .Cp), (70, .C), (67, .Cm),
   (63, .Dp), (60, .D), (57, .Dm),
   (53, .Fp), (50, .F), (0, .Fm)]

/-- The first-match loop of `scoreToGrade` (returns `F-` if no threshold
is met). -/
def firstGrade (score : ℚ) : List (ℚ × Grade) → Grade
  | [] => .Fm
  | (threshold, grade) :: rest =>
      if score ≥ threshold then grade else firstGrade score rest

/-- `scoreToGrade`. -/
def scoreToGrade (score : ℚ) : Grade := firstGrade score GRADE_THRESHOLDS

/-- `scoreToRecommendation`. -/
def scoreToRecommendation (score : ℚ) : Recommendation :=
  if score ≥ 85 then .strongBuy
  else if score ≥ 70 then .buy
  else if score ≥ 55 then .hold
  else if score ≥ 40 then .pass
  else .strongPass

/-! ## Market data model (`types/market.ts`) -/

/-- `MarketSummary`: the aggregate statistics record consumed by the four
scorers. -/
structure MarketSummary where
  avgSoldPrice : ℚ
  medianSoldPrice : ℚ
  minSoldPrice : ℚ
  maxSoldPrice : ℚ
  totalSold30Days : ℚ
  totalSold90Days : ℚ
  avgDaysToSell : ℚ
  activeListingCount : ℚ
  avgActivePrice : ℚ
  sellThroughRate : ℚ
  priceVolatility : ℚ
deriving Repr

/-- `MarketData`.  The scoring path reads only the `summary` field; the
raw listing arrays are never consulted by the embedded functions and are
omitted. -/
structure MarketData where
  summary : MarketSummary
deriving Repr

/-- `VestInput`; `none` models an absent optional field. -/
structure VestInput where
  buyPrice : ℚ
  estimatedFees : Option ℚ := none
  shippingCost : Option ℚ := none
deriving Repr

/-- `ComponentScore` (presentation-only `description` omitted). -/
structure ComponentScore where
  raw : ℚ
  normalized : ℚ
  weighted : ℚ
  weight : ℚ
deriving Repr

/-! ## V.E.S.T. component scorers -/

/-- Velocity factor 1: sales-volume score (0-40 points). -/
def velocityVolumeScore (m : MarketSummary) : ℚ :=
  min 40 (m.totalSold30Days / 100 * 40)

/-- Velocity factor 2: days-to-sell score (0-30 points). -/
def velocityDaysScore (m : MarketSummary) : ℚ :=
  if m.avgDaysToSell < 3 then 30
  else if m.avgDaysToSell < 7 then 25
  else if m.avgDaysToSell < 14 then 15
  else if m.avgDaysToSell < 30 then 10
  else 5

/-- Velocity factor 3: sell-through-rate score (0-30 points). -/
def velocityStrScore (m : MarketSummary) : ℚ :=
  if m.sellThroughRate > 0.80 then 30
  else if m.sellThroughRate > 0.60 then 20
  else if m.sellThroughRate > 0.40 then 15
  else 5

/-- `calculateVelocity` (weight 0.40). -/
def calculateVelocity (m : MarketSummary) : ComponentScore :=
  let weight : ℚ := 0.40
  let normalized := velocityVolumeScore m + velocityDaysScore m + velocityStrScore m
  { raw := m.totalSold30Days, normalized := normalized,
    weighted := normalized * weight, weight := weight }

/-- Output record of `calculateEquity` (a `ComponentScore` plus the three
profit figures). -/
structure EquityResult where
  raw : ℚ
  normalized : ℚ
  weighted : ℚ
  weight : ℚ
  netProfit : ℚ
  roi : ℚ
  grossMargin : ℚ
deriving Repr

/-- Equity factor 1: margin score (0-50 points), banded on the gross
margin as a fraction. -/
def equityMarginScore (grossMargin : ℚ) : ℚ :=
  if grossMargin ≥ 0.50 then 50
  else if grossMargin ≥ 0.40 then 40
  else if grossMargin ≥ 0.30 then 30
  else if grossMargin ≥ 0.20 then 20
  else if grossMargin ≥ 0.10 then 10
  else if grossMargin ≥ 0 then 5
  else 0

/-- Equity factor 2: ROI score (0-30 points), banded on ROI percent. -/
def equityRoiScore (roi : ℚ) : ℚ :=
  if roi ≥ 100 then 30
  else if roi ≥ 75 then 25
  else if roi ≥ 50 then 20
  else if roi ≥ 25 then 15
  else if roi ≥ 0 then 5
  else 0

/-- Equity factor 3: dollar-profit score (0-20 points). -/
def equityDollarScore (netProfit : ℚ) : ℚ :=
  if netProfit ≥ 50 then 20
  else if netProfit ≥ 30 then 15
  else if netProfit ≥ 15 then 10
  else if netProfit ≥ 5 then 5
  else 0

/-- `calculateEquity` (weight 0.40): profit figures computed from the
median sold price with a flat `estimatedFees` rate (default 0.13) on the
expected sell price, then banded into the three factor scores. -/
def calculateEquity (m : MarketSummary) (input : VestInput) : EquityResult :=
  let weight : ℚ := 0.40
  let estimatedFees := input.estimatedFees.getD 0.13
  let shippingCost := input.shippingCost.getD 5
  let expectedSellPrice := m.medianSoldPrice
  let totalCost := input.buyPrice + shippingCost
  let fees := expectedSellPrice * estimatedFees
  let netProfit := expectedSellPrice - totalCost - fees
  let grossMargin := if expectedSellPrice > 0 then netProfit / expectedSellPrice else 0
  let roi := if totalCost > 0 then netProfit / totalCost * 100 else 0
  let normalized := equityMarginScore grossMargin + equityRoiScore roi + equityDollarScore netProfit
  { raw := netProfit, normalized := normalized,
    weighted := normalized * weight, weight := weight,
    netProfit := round2 netProfit,
    roi := round1 roi,
    grossMargin := (jsRound (grossMargin * 1000) : ℚ) / 10 }

/-- Stability: the min/max price spread ratio (1 when the median is not
positive). -/
def stabilitySpread (m : MarketSummary) : ℚ :=
  if m.medianSoldPrice > 0 then (m.maxSoldPrice - m.minSoldPrice) / m.medianSoldPrice else 1

/-- Stability: the active/sold supply ratio (2 when nothing sold). -/
def stabilitySupplyRatio (m : MarketSummary) : ℚ :=
  if m.totalSold30Days > 0 then m.activeListingCount / m.totalSold30Days else 2

/-- Stability factor 1: volatility score (0-50 points). -/
def stabilityVolatilityScore (m : MarketSummary) : ℚ :=
  if m.priceVolatility < 0.10 then 50
  else if m.priceVolatility < 0.20 then 40
  else if m.priceVolatility < 0.30 then 25
  else 10

/-- Stability factor 2: spread score (0-30 points). -/
def stabilitySpreadScore (m : MarketSummary) : ℚ :=
  let spread := stabilitySpread m
  if spread < 0.30 then 30
  else if spread < 0.50 then 20
  else if spread < 0.75 then 10
  else 5

/-- Stability factor 3: supply-balance score (0-20 points). -/
def stabilitySupplyScore (m : MarketSummary) : ℚ :=
  let supplyRatio := stabilitySupplyRatio m
  if supplyRatio > 0.1 ∧ supplyRatio < 0.5 then 20
  else if supplyRatio ≥ 0.05 ∧ supplyRatio ≤ 1.0 then 15
  else 5

/-- `calculateStability` (weight 0.10). -/
def calculateStability (m : MarketSummary) : ComponentScore :=
  let weight : ℚ := 0.10
  let normalized := stabilityVolatilityScore m + stabilitySpreadScore m + stabilitySupplyScore m
  { raw := m.priceVolatility, normalized := normalized,
    weighted := normalized * weight, weight := weight }

/-- Trend: 30-day volume against one third of the 90-day volume (1 when
the denominator is not positive). -/
def trendVolumeRatio (m : MarketSummary) : ℚ :=
  let annualized90 := m.totalSold90Days / 3
  if annualized90 > 0 then m.totalSold30Days / annualized90 else 1

/-- Trend: active asking price against sold price (1 when the sold price
is not positive). -/
def trendPriceRatio (m : MarketSummary) : ℚ :=
  if m.avgSoldPrice > 0 then m.avgActivePrice / m.avgSoldPrice else 1

/-- Trend factor 1: volume-trend score (0-50 points). -/
def trendVolumeScore (m : MarketSummary) : ℚ :=
  let ratio := trendVolumeRatio m
  if ratio > 1.20 then 50
  else if ratio > 1.05 then 40
  else if ratio > 0.95 then 30
  else if ratio > 0.80 then 15
  else 5

/-- Trend factor 2: price-direction score (0-50 points). -/
def trendPriceScore (m : MarketSummary) : ℚ :=
  let ratio := trendPriceRatio m
  if ratio > 1.10 then 50
  else if ratio > 1.02 then 40
  else if ratio > 0.98 then 30
  else if ratio > 0.90 then 15
  else 5

/-- `calculateTrend` (weight 0.10). -/
def calculateTrend (m : MarketSummary) : ComponentScore :=
  let weight : ℚ := 0.10
  let normalized := trendVolumeScore m + trendPriceScore m
  { raw := trendVolumeRatio m, normalized := normalized,
    weighted := normalized * weight, weight := weight }

/-! ## Grade & Override Engine (`grade-override.ts`) -/

/-- `GRADE_VALUES`: numeric hierarchy for grade comparison (higher is
better). -/
def gradeValue : Grade → ℤ
  | .Ap => 17 | .A => 16 | .Am => 15
  | .Bp => 14 | .B => 13 | .Bm => 12
  | .Cp => 11 | .C => 10 | .Cm => 9
  | .Dp => 8 | .D => 7 | .Dm => 6
  | .Fp => 5 | .F => 4 | .Fm => 3

/-- `GRADE_MIN_SCORES`: minimum score for each grade. -/
def gradeMinScore : Grade → ℚ
  | .Ap => 95 | .A => 90 | .Am => 87
  | .Bp => 83 | .B => 80 | .Bm => 77
  | .Cp => 73 | .C => 70 | .Cm => 67
  | .Dp => 63 | .D => 60 | .Dm => 57
  | .Fp => 53 | .F => 50 | .Fm => 0

/-- `OverrideInput`: the numeric facts the override rules inspect. -/
structure OverrideInput where
  score : ℚ
  grade : Grade
  daysToSell : ℚ
  netProfit : ℚ
  grossMargin : ℚ
  sellThroughRate : ℚ
deriving Repr

/-- `OverrideResult`. -/
structure OverrideResult where
  originalGrade : Grade
  originalScore : ℚ
  finalGrade : Grade
  finalScore : ℚ
  overrideApplied : Bool
  overrideReason : Option String
  overrideType : Option String
deriving Repr

/-- One override rule: name, category, boolean condition, minimum grade,
reason text. -/
structure OverrideRule where
  name : String
  type : String
  condition : OverrideInput → Bool
  minimumGrade : Grade
  reason : String

/-- `OVERRIDE_RULES`: the ordered rule table (velocity, margin, market). -/
def OVERRIDE_RULES : List OverrideRule :=
  [{ name := "LIGHTNING_FLIP", type := "velocity",
     condition := fun i => i.daysToSell ≤ 3 && i.netProfit ≥ 8 && i.grossMargin ≥ 0.20,
     minimumGrade := .Bp,
     reason := "Lightning fast seller (≤3 days) with good profit" },
   { name := "CASH_FLOW_KING", type := "velocity",
     condition := fun i => i.daysToSell ≤ 5 && i.netProfit ≥ 5,
     minimumGrade := .B,
     reason := "Very fast velocity (≤5 days) with profit ≥$5" },
   { name := "VELOCITY_CHAMPION", type := "velocity",
     condition := fun i => i.daysToSell ≤ 7 && i.netProfit ≥ 10,
     minimumGrade := .Bp,
     reason := "Fast velocity (≤7 days) with strong profit ≥$10" },
   { name := "VELOCITY_STANDARD", type := "velocity",
     condition := fun i => i.daysToSell ≤ 10 && i.netProfit ≥ 10,
     minimumGrade := .Bm,
     reason := "Good velocity (≤10 days) with profit ≥$10" },
   { name := "QUICK_FLIP", type := "velocity",
     condition := fun i => i.daysToSell ≤ 7 && i.netProfit ≥ 5 && i.grossMargin ≥ 0.25,
     minimumGrade := .Bm,
     reason := "Quick flip opportunity with acceptable margins" },
   { name := "PREMIUM_MARGIN", type := "margin",
     condition := fun i => i.grossMargin ≥ 0.60 && i.netProfit ≥ 30,
     minimumGrade := .Bp,
     reason := "Exceptional margin (≥60%) with profit ≥$30" },
   { name := "HIGH_MARGIN_PLAY", type := "margin",
     condition := fun i => i.grossMargin ≥ 0.50 && i.netProfit ≥ 25,
     minimumGrade := .B,
     reason := "High margin (≥50%) with profit ≥$25" },
   { name := "SOLID_MARGIN", type := "margin",
     condition := fun i => i.grossMargin ≥ 0.40 && i.netProfit ≥ 20,
     minimumGrade := .Bm,
     reason := "Solid margin (≥40%) with profit ≥$20" },
   { name := "HOT_MARKET", type := "market",
     condition := fun i => i.sellThroughRate ≥ 0.65 && i.netProfit ≥ 8,
     minimumGrade := .B,
     reason := "Very hot market (≥65% sell-through) with decent profit" },
   { name := "ACTIVE_MARKET", type := "market",
     condition := fun i => i.sellThroughRate ≥ 0.50 && i.netProfit ≥ 10,
     minimumGrade := .Bm,
     reason := "Active market (≥50% sell-through) with good profit" }]

/-- The accumulator record of the `bestOverride` loop. -/
structure BestOverride where
  grade : Grade
  reason : String
  type : String
  gValue : ℤ
deriving Repr

/-- How the loop body packages a winning rule. -/
def mkBestOverride (rule : OverrideRule) : BestOverride :=
  { grade := rule.minimumGrade,
    reason := rule.name ++ ": " ++ rule.reason,
    type := rule.type,
    gValue := gradeValue rule.minimumGrade }

/-- One iteration of the `bestOverride` selection loop of
`applyGradeOverride`: an applicable rule replaces the held best only when
it would improve the original grade and strictly beats the held best. -/
def overrideStep (input : OverrideInput) (best : Option BestOverride)
    (rule : OverrideRule) : Option BestOverride :=
  if rule.condition input then
    if gradeValue rule.minimumGrade > gradeValue input.grade then
      match best with
      | none => some (mkBestOverride rule)
      | some b =>
          if gradeValue rule.minimumGrade > b.gValue then some (mkBestOverride rule)
          else some b
    else best
  else best

/-- The `bestOverride` loop over the rule table. -/
def findBestOverride (input : OverrideInput) : Option BestOverride :=
  OVERRIDE_RULES.foldl (overrideStep input) none

/-- `applyGradeOverride`. -/
def applyGradeOverride (input : OverrideInput) : OverrideResult :=
  match findBestOverride input with
  | some best =>
      { originalGrade := input.grade, originalScore := input.score,
        finalGrade := best.grade,
        finalScore := max input.score (gradeMinScore best.grade),
        overrideApplied := true,
        overrideReason := some best.reason,
        overrideType := some best.type }
  | none =>
      { originalGrade := input.grade, originalScore := input.score,
        finalGrade := input.grade, finalScore := input.score,
        overrideApplied := false,
        overrideReason := none,
        overrideType := none }

/-! ## Live scoring entry point (`algorithm.ts`) -/

/-- Output of `calculateVestScore` (`ExtendedVestScore`); the
presentation-only `overrideExplanation` is omitted. -/
structure ExtendedVestScore where
  total : ℚ
  grade : Grade
  velocity : ComponentScore
  equity : EquityResult
  stability : ComponentScore
  trend : ComponentScore
  recommendation : Recommendation
  estimatedProfit : ℚ
  roi : ℚ
  profitBreakdown : ProfitBreakdown
  gradeOverride : Option OverrideResult
deriving Repr

/-- The raw weighted total of the four components. -/
def vestRawTotal (m : MarketSummary) (buyPrice shippingCost : ℚ) : ℚ :=
  (calculateVelocity m).weighted
    + (calculateEquity m { buyPrice := buyPrice, shippingCost := some shippingCost }).weighted
    + (calculateStability m).weighted
    + (calculateTrend m).weighted

/-- `calculateVestScore`: scores the four components, computes the true
profit breakdown (median sold price as expected sale price), applies the
override rules, and reports the final (overridden) grade and score. -/
def calculateVestScore (market : MarketData) (input : VestInput) : ExtendedVestScore :=
  let buyPrice := input.buyPrice
  let shippingCost := input.shippingCost.getD 5
  let m := market.summary
  let velocity := calculateVelocity m
  let equityResult := calculateEquity m { buyPrice := buyPrice, shippingCost := some shippingCost }
  let stability := calculateStability m
  let trend := calculateTrend m
  let profitBreakdown := calculateNetProfit
    { expectedSalePrice := m.medianSoldPrice, buyPrice := buyPrice,
      shippingCost := some shippingCost }
  let rawTotal := velocity.weighted + equityResult.weighted + stability.weighted + trend.weighted
  let rawGrade := scoreToGrade rawTotal
  let overrideInput : OverrideInput :=
    { score := rawTotal, grade := rawGrade,
      daysToSell := m.avgDaysToSell,
      netProfit := profitBreakdown.netProfit,
      grossMargin := profitBreakdown.effectiveMargin / 100,
      sellThroughRate := m.sellThroughRate }
  let gradeOverride := applyGradeOverride overrideInput
  let finalScore := gradeOverride.finalScore
  let finalGrade := gradeOverride.finalGrade
  { total := round1 finalScore,
    grade := finalGrade,
    velocity := velocity, equity := equityResult,
    stability := stability, trend := trend,
    recommendation := scoreToRecommendation finalScore,
    estimatedProfit := profitBreakdown.netProfit,
    roi := profitBreakdown.roi,
    profitBreakdown := profitBreakdown,
    gradeOverride := if gradeOverride.overrideApplied then some gradeOverride else none }

/-- Target grades accepted by `suggestBuyPrice`. -/
inductive TargetGrade where
  | A | B | C
deriving Repr, DecidableEq

/-- `suggestBuyPrice`: closed-form approximation working backwards from a
target score through an assumed equity contribution and a flat 13% fee. -/
def suggestBuyPrice (market : MarketData) (targetGrade : TargetGrade) : ℚ :=
  let targetScore : ℚ := match targetGrade with
    | .A => 90 | .B => 80 | .C => 70
  let medianPrice := market.summary.medianSoldPrice
  let fees := medianPrice * 0.13
  let shipping : ℚ := 5
  let neededEquityWeighted := (targetScore - 50) / 0.4 * 0.4
  let targetMargin := neededEquityWeighted / 0.4 / 100 + 0.1
  let suggestedBuy := medianPrice * (1 - targetMargin) - fees - shipping
  max 0 (jsRound suggestedBuy : ℚ)

/-! ## Price triangulation fallback (`gemini.ts`) -/

/-- Data-quality labels. -/
inductive DataQuality where
  | high | medium | low
deriving Repr, DecidableEq

/-- Triangulation recommendation labels. -/
inductive TriRecommendation where
  | buy | maybe | pass
deriving Repr, DecidableEq

/-- The AI price estimate fed into triangulation. -/
structure AiEstimate where
  low : ℚ
  mid : ℚ
  high : ℚ
deriving Repr

/-- The eBay asking-price statistics fed into triangulation. -/
structure EbayData where
  avgPrice : ℚ
  minPrice : ℚ
  maxPrice : ℚ
  listingCount : ℚ
deriving Repr

/-- `TriangulatedPrice` (presentation-only `reasoning`/`marketInsight`
strings omitted). -/
structure TriangulatedPrice where
  low : ℚ
  mid : ℚ
  high : ℚ
  confidence : ℚ
  dataQuality : DataQuality
  recommendation : TriRecommendation
deriving Repr

/-- The blending tail of `calculateFallbackTriangulation`, once
`ebayWeight` and `dataQuality` have been selected from the listing
count: asking→sold adjustment (low/avg ×0.8, max ×0.85), then the
weighted average per bound, confidence `ebayWeight + 0.2`. -/
def blendTriangulation (aiEstimate : AiEstimate) (ebayData : EbayData)
    (ebayWeight : ℚ) (dataQuality : DataQuality) : TriangulatedPrice :=
  let aiWeight := 1 - ebayWeight
  let ebayAdjustedLow := ebayData.minPrice * 0.8
  let ebayAdjustedMid := ebayData.avgPrice * 0.8
  let ebayAdjustedHigh := ebayData.maxPrice * 0.85
  let finalLow := aiEstimate.low * aiWeight + ebayAdjustedLow * ebayWeight
  let finalMid := aiEstimate.mid * aiWeight + ebayAdjustedMid * ebayWeight
  let finalHigh := aiEstimate.high * aiWeight + ebayAdjustedHigh * ebayWeight
  let recommendation : TriRecommendation :=
    if dataQuality = .high ∧ ebayData.listingCount > 15 then .buy
    else if ebayData.listingCount < 3 then .pass
    else .maybe
  { low := round2 finalLow, mid := round2 finalMid, high := round2 finalHigh,
    confidence := ebayWeight + 0.2, dataQuality := dataQuality,
    recommendation := recommendation }

/-- `calculateFallbackTriangulation`: evidence-weighted blend of the AI
estimate with asking→sold-adjusted eBay statistics; with no eBay
listings the AI estimate is returned discounted instead of blended. -/
def calculateFallbackTriangulation (aiEstimate : AiEstimate) (ebayData : EbayData) :
    TriangulatedPrice :=
  if ebayData.listingCount ≥ 10 then blendTriangulation aiEstimate ebayData 0.75 .high
  else if ebayData.listingCount ≥ 5 then blendTriangulation aiEstimate ebayData 0.5 .medium
  else if ebayData.listingCount ≥ 1 then blendTriangulation aiEstimate ebayData 0.3 .low
  else
    { low := aiEstimate.low * 0.8, mid := aiEstimate.mid * 0.85,
      high := aiEstimate.high * 0.9,
      confidence := 0.4, dataQuality := .low, recommendation := .maybe }

/-! ## Sell-through / velocity estimator (`sell-through.ts`) -/

/-- AI-derived demand level. -/
inductive DemandLevel where
  | high | medium | low
deriving Repr, DecidableEq

/-- Market classification from the final sell-through rate. -/
inductive MarketType where
  | sellers | balanced | buyers
deriving Repr, DecidableEq

/-- Pricing strategy paired with the market type. -/
inductive PricingStrategy where
  | aggressive | moderate | conservative
deriving Repr, DecidableEq

/-- `SellThroughInput`. -/
structure SellThroughInput where
  demandLevel : DemandLevel
  activeListingCount : ℚ
  aiPriceEstimate : ℚ
  ebayMedianPrice : ℚ
deriving Repr

/-- `SellThroughResult` (the `reasoning` string, which interpolates
numbers, is omitted; the static `adjustments` fragments are kept). -/
structure SellThroughResult where
  estimatedRate : ℚ
  marketType : MarketType
  pricingStrategy : PricingStrategy
  adjustments : List String
  estimatedDaysToSell : ℤ
deriving Repr

/-- `DEMAND_BASE_STR`: base sell-through rate by demand level. -/
def DEMAND_BASE_STR : DemandLevel → ℚ
  | .high => 0.65 | .medium => 0.40 | .low => 0.20

/-- `DEMAND_BASE_DAYS`: base days to sell by demand level. -/
def DEMAND_BASE_DAYS : DemandLevel → ℚ
  | .high => 5 | .medium => 12 | .low => 25

/-- The rate/days/log deltas of the listing-density adjustment. -/
def densityAdjustment (activeListingCount : ℚ) : ℚ × ℚ × List String :=
  if activeListingCount < 5 then (0.15, -3, ["+15% STR (scarce: <5 listings)"])
  else if activeListingCount < 10 then (0.10, -2, ["+10% STR (low supply: <10 listings)"])
  else if activeListingCount > 100 then (-0.15, 7, ["-15% STR (very saturated: >100 listings)"])
  else if activeListingCount > 50 then (-0.10, 4, ["-10% STR (saturated: >50 listings)"])
  else (0, 0, [])

/-- The rate/days/log deltas of the price-position adjustment (only
evaluated when the eBay median is positive). -/
def priceAdjustment (aiPriceEstimate ebayMedianPrice : ℚ) : ℚ × ℚ × List String :=
  if ebayMedianPrice > 0 then
    let priceRatio := aiPriceEstimate / ebayMedianPrice
    if priceRatio < 0.7 then (0.15, -3, ["+15% STR (significantly underpriced)"])
    else if priceRatio < 0.85 then (0.08, -2, ["+8% STR (priced below market)"])
    else if priceRatio > 1.3 then (-0.12, 5, ["-12% STR (priced above market)"])
    else if priceRatio > 1.1 then (-0.05, 2, ["-5% STR (slightly above market)"])
    else (0, 0, [])
  else (0, 0, [])

/-- The sell-through rate before clamping: demand-level base plus the
two additive adjustments. -/
def strRaw (input : SellThroughInput) : ℚ :=
  DEMAND_BASE_STR input.demandLevel
    + (densityAdjustment input.activeListingCount).1
    + (priceAdjustment input.aiPriceEstimate input.ebayMedianPrice).1

/-- The sell-through rate clamped to `[0.05, 0.95]`. -/
def strClamped (input : SellThroughInput) : ℚ := max 0.05 (min 0.95 (strRaw input))

/-- Days to sell before clamping: demand-level base plus the two
additive adjustments. -/
def daysRaw (input : SellThroughInput) : ℚ :=
  DEMAND_BASE_DAYS input.demandLevel
    + (densityAdjustment input.activeListingCount).2.1
    + (priceAdjustment input.aiPriceEstimate input.ebayMedianPrice).2.1

/-- Days to sell clamped to `[1, 45]`. -/
def daysClamped (input : SellThroughInput) : ℚ := max 1 (min 45 (daysRaw input))

/-- `estimateSellThroughRate`: base rate and days by demand level, the
two additive adjustments, clamping, and market classification from the
clamped rate. -/
def estimateSellThroughRate (input : SellThroughInput) : SellThroughResult :=
  let d := densityAdjustment input.activeListingCount
  let p := priceAdjustment input.aiPriceEstimate input.ebayMedianPrice
  let adjustments := d.2.2 ++ p.2.2
  let marketType : MarketType :=
    if strClamped input > 0.55 then .sellers
    else if strClamped input ≥ 0.35 then .balanced
    else .buyers
  let pricingStrategy : PricingStrategy :=
    if strClamped input > 0.55 then .aggressive
    else if strClamped input ≥ 0.35 then .moderate
    else .conservative
  { estimatedRate := round2 (strClamped input),
    marketType := marketType,
    pricingStrategy := pricingStrategy,
    adjustments := adjustments,
    estimatedDaysToSell := jsRound (daysClamped input) }

/-! ## Search with progressive fallback (`keyword-broadener.ts`) -/

/-- One entry of the tier list produced by `broadenQuery`. -/
structure BroadenResult where
  query : String
  tier : ℕ
  confidence : ℚ
  strippedTerms : List String
deriving Repr

/-- The record returned by `searchWithFallback`. -/
structure FallbackResult (α : Type) where
  results : List α
  total : ℕ
  usedQuery : String
  originalQuery : String
  tier : ℕ
  confidence : ℚ
  broadened : Bool
  strippedTerms : List String
deriving Repr

/-- The injected search function: `.error` models a rejected promise. -/
def SearchFn (α : Type) : Type := String → Except Unit (List α × ℕ)

/-- The tier loop of `searchWithFallback`: first tier whose search
succeeds with at least `minResults` results wins; a tier whose search
throws is skipped. -/
def tryTiers {α : Type} (searchFn : SearchFn α) (minResults : ℕ)
    (originalQuery : String) : List BroadenResult → Option (FallbackResult α)
  | [] => none
  | q :: rest =>
      match searchFn q.query with
      | .ok (results, total) =>
          if results.length ≥ minResults then
            some { results := results, total := total, usedQuery := q.query,
                   originalQuery := originalQuery, tier := q.tier,
                   confidence := q.confidence, broadened := decide (q.tier > 1),
                   strippedTerms := q.strippedTerms }
          else tryTiers searchFn minResults originalQuery rest
      | .error _ => tryTiers searchFn minResults originalQuery rest

/-- `searchWithFallback`, parametrised by the tier list `queries`
produced by `broadenQuery(originalQuery)` (always nonempty: Tier 1 is
always pushed).  When no tier meets the threshold the source re-runs the
search on `queries[queries.length - 1]` and applies the 0.5 confidence
penalty; if that final call also throws it returns the empty result set
with confidence 0.1. -/
def searchWithFallback {α : Type} (queries : List BroadenResult)
    (searchFn : SearchFn α) (minResults : ℕ) (originalQuery : String) :
    FallbackResult α :=
  match tryTiers searchFn minResults originalQuery queries with
  | some r => r
  | none =>
      let lastQuery := queries.getLastD { query := originalQuery, tier := 1, confidence := 1, strippedTerms := [] }
      match searchFn lastQuery.query with
      | .ok (results, total) =>
          { results := results, total := total, usedQuery := lastQuery.query,
            originalQuery := originalQuery, tier := lastQuery.tier,
            confidence := lastQuery.confidence * 0.5, broadened := true,
            strippedTerms := lastQuery.strippedTerms }
      | .error _ =>
          { results := [], total := 0, usedQuery := lastQuery.query,
            originalQuery := originalQuery, tier := lastQuery.tier,
            confidence := 0.1, broadened := true,
            strippedTerms := lastQuery.strippedTerms }

/-! ## Market statistics (`ebay.ts`, `part_006`) -/

/-- `calculateSellThroughRate`: `sold / (sold + active)`, with 0.5
substituted when there is no supply at all. -/
def calculateSellThroughRate (sold active : ℚ) : ℚ :=
  if sold + active = 0 then 0.5 else round2 (sold / (sold + active))

/-- `calculatePriceVolatility` under NaN-tracking semantics, parametrised
by the square-root function (JavaScript's `Math.sqrt`; only `sqrt 0 = 0`
matters below).  The source guards only `prices.length < 2`; the final
`stdDev / mean` is an unchecked division, so a price list with zero mean
makes the source return `NaN` (or `Infinity`), modelled as `none`. -/
def calculatePriceVolatility (sqrtFn : ℚ → ℚ) (prices : List ℚ) : Option ℚ :=
  if prices.length < 2 then some 0
  else
    let mean := prices.sum / (prices.length : ℚ)
    let variance := (prices.map (fun p => (p - mean) ^ 2)).sum / (prices.length : ℚ)
    let stdDev := sqrtFn variance
    (safeDiv stdDev mean).map round2

/-! ## Checked-division variants for the NaN-safety claim

Each definition repeats the guard structure of its source ratio with the
division made partial (`safeDiv`): `none` marks exactly an unguarded
division by zero, i.e. a place where the JavaScript source would produce
`NaN`/`Infinity`. -/

/-- Checked `sold / (sold + active)` of `calculateSellThroughRate`. -/
def strRatioChecked (sold active : ℚ) : Option ℚ :=
  if sold + active = 0 then some 0.5
  else (safeDiv sold (sold + active)).map round2

/-- Checked price-position ratio of `estimateSellThroughRate` (no ratio
is computed when the median is not positive; the neutral no-adjustment
value is modelled as `some 1`). -/
def priceRatioChecked (aiPriceEstimate ebayMedianPrice : ℚ) : Option ℚ :=
  if ebayMedianPrice > 0 then safeDiv aiPriceEstimate ebayMedianPrice else some 1

/-- Checked effective margin of `calculateNetProfit`. -/
def marginChecked (netProfit salePrice : ℚ) : Option ℚ :=
  if salePrice > 0 then (safeDiv netProfit salePrice).map (· * 100) else some 0

/-- Checked ROI of `calculateNetProfit` / `calculateEquity`. -/
def roiChecked (netProfit totalInvestment : ℚ) : Option ℚ :=
  if totalInvestment > 0 then (safeDiv netProfit totalInvestment).map (· * 100) else some 0

/-- Checked gross margin of `calculateEquity`. -/
def grossMarginChecked (netProfit expectedSellPrice : ℚ) : Option ℚ :=
  if expectedSellPrice > 0 then safeDiv netProfit expectedSellPrice else some 0

/-- Checked price-spread ratio of `calculateStability`. -/
def stabilitySpreadChecked (m : MarketSummary) : Option ℚ :=
  if m.medianSoldPrice > 0 then safeDiv (m.maxSoldPrice - m.minSoldPrice) m.medianSoldPrice
  else some 1

/-- Checked supply ratio of `calculateStability`. -/
def stabilitySupplyRatioChecked (m : MarketSummary) : Option ℚ :=
  if m.totalSold30Days > 0 then safeDiv m.activeListingCount m.totalSold30Days else some 2

/-- Checked volume-trend ratio of `calculateTrend`. -/
def trendVolumeRatioChecked (m : MarketSummary) : Option ℚ :=
  let annualized90 := m.totalSold90Days / 3
  if annualized90 > 0 then safeDiv m.totalSold30Days annualized90 else some 1

/-- Checked price-trend ratio of `calculateTrend`. -/
def trendPriceRatioChecked (m : MarketSummary) : Option ℚ :=
  if m.avgSoldPrice > 0 then safeDiv m.avgActivePrice m.avgSoldPrice else some 1

/-! ## Concrete scenario inputs and spec-side selection functions -/

/-! ## Override selection, spec side

The spec describes the selection as: among all rules whose condition is
true and whose minimum grade numerically exceeds the raw grade, pick the
one with the highest minimum grade, ties broken by declaration order
(first wins).  `qualifyingRules` and `argmaxFirstRule` write this down
directly; the lemmas below connect them to the source's
`bestOverride` loop. -/

/-- A rule qualifies: its condition holds and its minimum grade strictly
improves on the raw grade. -/
def ruleApplies (input : OverrideInput) (rule : OverrideRule) : Bool :=
  rule.condition input && decide (gradeValue rule.minimumGrade > gradeValue input.grade)

/-- All qualifying rules, in declaration order. -/
def qualifyingRules (input : OverrideInput) : List OverrideRule :=
  OVERRIDE_RULES.filter (ruleApplies input)

/-- One step of the maximum-selection scan: keep the held rule unless the
new one is strictly better (so the first of equally-graded rules wins). -/
def ruleMaxStep (acc : Option OverrideRule) (rule : OverrideRule) : Option OverrideRule :=
  match acc with
  | none => some rule
  | some b =>
      if gradeValue rule.minimumGrade > gradeValue b.minimumGrade then some rule else some b

/-- First rule attaining the maximum minimum-grade value. -/
def argmaxFirstRule (l : List OverrideRule) : Option OverrideRule :=
  l.foldl ruleMaxStep none

/-- The loop body applied to an already-packaged accumulator. -/
def bestMaxStep (acc : Option BestOverride) (rule : OverrideRule) : Option BestOverride :=
  match acc with
  | none => some (mkBestOverride rule)
  | some b =>
      if gradeValue rule.minimumGrade > b.gValue then some (mkBestOverride rule) else some b

/-- Scenario A's concrete input to `calculateNetProfit`. -/
def scenarioAInput : ProfitInput :=
  { expectedSalePrice := 45, buyPrice := 12, shippingCost := some 8 }

/-- A market with a slow, volatile, low-demand profile: nothing sold,
45 days to sell, 10 active listings, volatile prices around a $45
median. -/
def slowMarket : MarketData :=
  { summary :=
    { avgSoldPrice := 45, medianSoldPrice := 45, minSoldPrice := 20,
      maxSoldPrice := 80, totalSold30Days := 0, totalSold90Days := 0,
      avgDaysToSell := 45, activeListingCount := 10, avgActivePrice := 30,
      sellThroughRate := 0.1, priceVolatility := 0.5 } }

/-- Scenario B's override-engine input: 6 days to sell, $18 net profit,
raw grade `D-` (raw score 58). -/
def scenarioBInput : OverrideInput :=
  { score := 58, grade := .Dm, daysToSell := 6, netProfit := 18,
    grossMargin := 0, sellThroughRate := 0 }

/-- The `VELOCITY_CHAMPION` rule (days ≤ 7 ∧ profit ≥ $10 → `B+`). -/
def velocityChampionRule : OverrideRule :=
  { name := "VELOCITY_CHAMPION", type := "velocity",
    condition := fun i => i.daysToSell ≤ 7 && i.netProfit ≥ 10,
    minimumGrade := .Bp,
    reason := "Fast velocity (≤7 days) with strong profit ≥$10" }

/-- An input on which no override rule fires (slow, unprofitable, and
already at the top grade). -/
def noOverrideInput : OverrideInput :=
  { score := 97, grade := .Ap, daysToSell := 99, netProfit := 0,
    grossMargin := 0, sellThroughRate := 0 }

/-- Scenario D's AI estimate. -/
def scenarioDAi : AiEstimate := { low := 10, mid := 20, high := 30 }

/-- Scenario D's eBay statistics (12 listings). -/
def scenarioDEbay : EbayData :=
  { avgPrice := 15, minPrice := 12, maxPrice := 25, listingCount := 12 }

/-- Scenario C's input: high demand, 3 active listings, AI mid $40,
eBay median $60. -/
def scenarioCInput : SellThroughInput :=
  { demandLevel := .high, activeListingCount := 3,
    aiPriceEstimate := 40, ebayMedianPrice := 60 }

/-- A three-tier query list as produced by `broadenQuery` (confidences
1.0 / 0.85 / 0.70). -/
def cexTiers : List BroadenResult :=
  [{ query := "q1", tier := 1, confidence := 1, strippedTerms := [] },
   { query := "q2", tier := 2, confidence := 0.85, strippedTerms := [] },
   { query := "q3", tier := 3, confidence := 0.7, strippedTerms := [] }]

/-- A search function that succeeds with zero results on tiers 1 and 2
and throws on tier 3. -/
def cexSearchFn : SearchFn ℕ :=
  fun q => if q = "q3" then .error () else .ok ([], 0)

/-! # Theorems -/

/-- C1 counterexample: on `buyPrice=12`, `expectedSalePrice=45`,
`shippingCost=8`, default category, the code does NOT return
`totalPlatformCosts = 16.45` and `netProfit = 16.55` as the claim states:
rounding is applied to the exact totals (16.442 and 16.558), not to the
sum of the already-rounded components. -/
theorem scenarioA_claim_false :
    (calculateNetProfit scenarioAInput).totalPlatformCosts ≠ 16.45 ∧
    (calculateNetProfit scenarioAInput).netProfit ≠ 16.55 := by
  norm_num [scenarioAInput, calculateNetProfit, round2, jsRound, getEbayFeeRate, Option.getD]

/-- C1 (amended): `calculateNetProfit` on `buyPrice=12`,
`expectedSalePrice=45`, `shippingCost=8` and the default category (no
promoted rate) returns `ebayFinalValueFee = 6.84`,
`paymentProcessingFee = 1.61`, `totalPlatformCosts = 16.44` and
`netProfit = 16.56`, every monetary output rounded to cents (the totals
are rounded from the exact values 16.442 and 16.558, so they differ by
one cent from the sums of the rounded components). -/
theorem scenarioA_netProfit_eval :
    (calculateNetProfit scenarioAInput).ebayFinalValueFee = 6.84 ∧
    (calculateNetProfit scenarioAInput).paymentProcessingFee = 1.61 ∧
    (calculateNetProfit scenarioAInput).shippingCost = 8 ∧
    (calculateNetProfit scenarioAInput).totalPlatformCosts = 16.44 ∧
    (calculateNetProfit scenarioAInput).netProfit = 16.56 := by
  norm_num [scenarioAInput, calculateNetProfit, round2, jsRound, getEbayFeeRate, Option.getD]

/-- C2: `suggestBuyPrice` is NOT the specified binary search over the
live scoring path.  It is a closed-form margin heuristic that never
calls `calculateVestScore`; on `slowMarket` with target grade `A` it
returns 0, yet the full V.E.S.T. score at buy price 0 on that market is
only `B+`, strictly below the target — the returned price does not meet
the target grade, which the specified binary search over
`calculateVestScore` would have made impossible to miss silently. -/
theorem suggestBuyPrice_misses_target :
    suggestBuyPrice slowMarket .A = 0 ∧
    (calculateVestScore slowMarket { buyPrice := 0 }).grade = Grade.Bp ∧
    gradeValue Grade.Bp < gradeValue Grade.A := by
  refine ⟨?_, ?_, ?_⟩
  · norm_num [slowMarket, suggestBuyPrice, jsRound]
  · norm_num [slowMarket, calculateVestScore, calculateVelocity, calculateEquity,
      calculateStability, calculateTrend, calculateNetProfit, applyGradeOverride,
      findBestOverride, OVERRIDE_RULES, overrideStep, mkBestOverride, scoreToGrade,
      GRADE_THRESHOLDS, firstGrade, velocityVolumeScore, velocityDaysScore,
      velocityStrScore, equityMarginScore, equityRoiScore, equityDollarScore,
      stabilityVolatilityScore, stabilitySpreadScore, stabilitySupplyScore,
      stabilitySpread, stabilitySupplyRatio, trendVolumeScore, trendPriceScore,
      trendVolumeRatio, trendPriceRatio, round2, round1, jsRound, getEbayFeeRate,
      gradeValue, gradeMinScore, Option.getD, List.foldl]
  · norm_num [gradeValue]

/-- C3 counterexample: with median sold price 45, `buyPrice = 12`,
`shippingCost = 8`, the Equity scorer reports `netProfit = 19.15`
(flat 13% fee on the median), while the §4.4 net-profit formula
(`calculateNetProfit` on the same sale price, buy price and shipping)
yields `16.56` — the Equity scorer does not use the §4.4 formula. -/
theorem equity_differs_from_fee_formula :
    (calculateEquity slowMarket.summary { buyPrice := 12, shippingCost := some 8 }).netProfit = 19.15 ∧
    (calculateNetProfit { expectedSalePrice := 45, buyPrice := 12, shippingCost := some 8 }).netProfit = 16.56 ∧
    (19.15 : ℚ) ≠ 16.56 := by
  refine ⟨?_, ?_, by norm_num⟩
  · norm_num [slowMarket, calculateEquity, round2, jsRound, Option.getD]
  · norm_num [calculateNetProfit, round2, jsRound, getEbayFeeRate, Option.getD]

/-- C3 (amended): for every market summary and buy-price input, the
Equity scorer's `netProfit`, `roi` and `grossMargin` come from the flat
`estimatedFees` rate (default 0.13) applied to the median sold price —
`netProfit = median − (buyPrice + shipping) − median × fees` — with the
zero-denominator guards of the source, rounded to cents (profit), one
decimal (roi) and one decimal of a percent (margin); not from the §4.4
category-fee formula. -/
theorem calculateEquity_profit_formula (m : MarketSummary) (input : VestInput) :
    (calculateEquity m input).netProfit
      = round2 (m.medianSoldPrice - (input.buyPrice + input.shippingCost.getD 5)
          - m.medianSoldPrice * input.estimatedFees.getD 0.13) ∧
    (calculateEquity m input).roi
      = round1 (if input.buyPrice + input.shippingCost.getD 5 > 0
          then (m.medianSoldPrice - (input.buyPrice + input.shippingCost.getD 5)
              - m.medianSoldPrice * input.estimatedFees.getD 0.13)
            / (input.buyPrice + input.shippingCost.getD 5) * 100
          else 0) ∧
    (calculateEquity m input).grossMargin
      = (jsRound ((if m.medianSoldPrice > 0
          then (m.medianSoldPrice - (input.buyPrice + input.shippingCost.getD 5)
              - m.medianSoldPrice * input.estimatedFees.getD 0.13) / m.medianSoldPrice
          else 0) * 1000) : ℚ) / 10 := by
  refine ⟨rfl, rfl, rfl⟩

theorem overrideStep_eq (input : OverrideInput) (acc : Option BestOverride)
    (rule : OverrideRule) :
    overrideStep input acc rule =
      if ruleApplies input rule then bestMaxStep acc rule else acc := by
  cases hc : rule.condition input <;>
    cases hv : decide (gradeValue rule.minimumGrade > gradeValue input.grade) <;>
      simp [overrideStep, ruleApplies, bestMaxStep, hc, hv,
        of_decide_eq_true, of_decide_eq_false]

theorem foldl_overrideStep_filter (input : OverrideInput) :
    ∀ (l : List OverrideRule) (acc : Option BestOverride),
      l.foldl (overrideStep input) acc =
        (l.filter (ruleApplies input)).foldl bestMaxStep acc := by
  intro l
  induction l with
  | nil => intro acc; rfl
  | cons x t ih =>
      intro acc
      cases hx : ruleApplies input x <;>
        simp [List.foldl_cons, List.filter_cons, hx, overrideStep_eq, ih]

theorem foldl_bestMaxStep_map :
    ∀ (l : List OverrideRule) (acc : Option OverrideRule),
      l.foldl bestMaxStep (acc.map mkBestOverride) =
        (l.foldl ruleMaxStep acc).map mkBestOverride := by
  intro l
  induction l with
  | nil => intro acc; rfl
  | cons x t ih =>
      intro acc
      cases acc with
      | none => simpa [List.foldl_cons, bestMaxStep, ruleMaxStep] using ih (some x)
      | some b =>
          by_cases hgt : gradeValue x.minimumGrade > gradeValue b.minimumGrade
          · simpa [List.foldl_cons, bestMaxStep, ruleMaxStep, mkBestOverride, hgt]
              using ih (some x)
          · simpa [List.foldl_cons, bestMaxStep, ruleMaxStep, mkBestOverride, hgt]
              using ih (some b)

/-- The source's `bestOverride` loop is exactly "first rule attaining the
maximum grade among the qualifying rules". -/
theorem findBestOverride_eq (input : OverrideInput) :
    findBestOverride input = (argmaxFirstRule (qualifyingRules input)).map mkBestOverride := by
  have h := foldl_bestMaxStep_map (qualifyingRules input) none
  simpa [findBestOverride, argmaxFirstRule, qualifyingRules,
    foldl_overrideStep_filter input OVERRIDE_RULES none] using h

theorem ruleMaxStep_eq_some (acc : Option OverrideRule) (x r : OverrideRule)
    (h : ruleMaxStep acc x = some r) : acc = some r ∨ r = x := by
  cases acc with
  | none => right; simpa [ruleMaxStep] using h.symm
  | some b =>
      by_cases hgt : gradeValue x.minimumGrade > gradeValue b.minimumGrade
      · right; simp [ruleMaxStep, hgt] at h; exact h.symm
      · left; simp [ruleMaxStep, hgt] at h; simp [h]

theorem foldl_ruleMaxStep_mem :
    ∀ (l : List OverrideRule) (acc : Option OverrideRule) (r : OverrideRule),
      l.foldl ruleMaxStep acc = some r → acc = some r ∨ r ∈ l := by
  intro l
  induction l with
  | nil => intro acc r h; left; simpa using h
  | cons x t ih =>
      intro acc r h
      rcases ih (ruleMaxStep acc x) r (by simpa [List.foldl_cons] using h) with h1 | h1
      · rcases ruleMaxStep_eq_some acc x r h1 with h2 | h2
        · exact Or.inl h2
        · exact Or.inr (by simp [h2])
      · exact Or.inr (List.mem_cons_of_mem x h1)

theorem foldl_ruleMaxStep_max :
    ∀ (l : List OverrideRule) (acc : Option OverrideRule) (r : OverrideRule),
      l.foldl ruleMaxStep acc = some r →
      (∀ x ∈ l, gradeValue x.minimumGrade ≤ gradeValue r.minimumGrade) ∧
      (∀ b, acc = some b → gradeValue b.minimumGrade ≤ gradeValue r.minimumGrade) := by
  intro l
  induction l with
  | nil =>
      intro acc r h
      refine ⟨by simp, fun b hb => ?_⟩
      simp only [List.foldl_nil] at h
      rw [hb] at h
      simp_all
  | cons x t ih =>
      intro acc r h
      obtain ⟨hmem, hacc⟩ := ih (ruleMaxStep acc x) r (by simpa [List.foldl_cons] using h)
      have hx : gradeValue x.minimumGrade ≤ gradeValue r.minimumGrade := by
        cases acc with
        | none => exact hacc x rfl
        | some b =>
            by_cases hgt : gradeValue x.minimumGrade > gradeValue b.minimumGrade
            · exact hacc x (by simp [ruleMaxStep, hgt])
            · exact le_trans (not_lt.mp hgt) (hacc b (by simp [ruleMaxStep, hgt]))
      refine ⟨fun y hy => ?_, fun b hb => ?_⟩
      · rcases List.mem_cons.mp hy with h1 | h1
        · exact h1 ▸ hx
        · exact hmem y h1
      · subst hb
        by_cases hgt : gradeValue x.minimumGrade > gradeValue b.minimumGrade
        · exact le_trans (le_of_lt hgt) hx
        · exact hacc b (by simp [ruleMaxStep, hgt])

theorem foldl_ruleMaxStep_first :
    ∀ (l : List OverrideRule) (acc : Option OverrideRule) (r : OverrideRule),
      l.foldl ruleMaxStep acc = some r →
      acc = some r ∨
        ((∀ b, acc = some b → gradeValue b.minimumGrade < gradeValue r.minimumGrade) ∧
          l.find? (fun x => decide (gradeValue r.minimumGrade ≤ gradeValue x.minimumGrade)) = some r) := by
  intro l
  induction l with
  | nil => intro acc r h; left; simpa using h
  | cons x t ih =>
      intro acc r h
      have hmax := foldl_ruleMaxStep_max t (ruleMaxStep acc x) r
        (by simpa [List.foldl_cons] using h)
      rcases ih (ruleMaxStep acc x) r (by simpa [List.foldl_cons] using h) with h1 | h1
      · -- the accumulator after one step already holds r
        cases acc with
        | none =>
            right
            have hxr : r = x := by simpa [ruleMaxStep] using h1.symm
            subst hxr
            refine ⟨by simp, ?_⟩
            rw [List.find?_cons_of_pos _ (by simp)]
        | some b =>
            by_cases hgt : gradeValue x.minimumGrade > gradeValue b.minimumGrade
            · right
              have hxr : r = x := by simp [ruleMaxStep, hgt] at h1; exact h1.symm
              subst hxr
              refine ⟨fun b' hb' => by cases hb'; simpa using hgt, ?_⟩
              rw [List.find?_cons_of_pos _ (by simp)]
            · left
              simp [ruleMaxStep, hgt] at h1
              simp [h1]
      · -- r was found strictly later
        obtain ⟨hlt, hfind⟩ := h1
        have hstep : ∀ b, ruleMaxStep acc x = some b →
            gradeValue b.minimumGrade < gradeValue r.minimumGrade := hlt
        right
        have hxlt : gradeValue x.minimumGrade < gradeValue r.minimumGrade := by
          cases acc with
          | none => exact hstep x rfl
          | some b =>
              by_cases hgt : gradeValue x.minimumGrade > gradeValue b.minimumGrade
              · exact hstep x (by simp [ruleMaxStep, hgt])
              · exact lt_of_le_of_lt (not_lt.mp hgt) (hstep b (by simp [ruleMaxStep, hgt]))
        refine ⟨fun b hb => ?_, ?_⟩
        · cases acc with
          | none => cases hb
          | some b' =>
              cases hb
              by_cases hgt : gradeValue x.minimumGrade > gradeValue b.minimumGrade
              · exact lt_trans hgt hxlt
              · exact hstep b (by simp [ruleMaxStep, hgt])
        · rw [List.find?_cons_of_neg _ (by simpa using not_le.mpr hxlt)]
          exact hfind

/-- C4: among all override rules whose condition holds and whose minimum
grade exceeds the raw grade, the one with the highest minimum grade is
selected (ties broken by declaration order, first wins), and the final
score becomes `max(rawScore, minScore(overrideGrade))`; in particular
Scenario B (`daysToSell=6`, `netProfit=$18`, raw grade `D-`) triggers
`VELOCITY_CHAMPION`, forcing `finalGrade=B+` and
`finalScore=max(rawScore,83)=83`. -/
theorem override_selects_highest_first :
    (∀ (input : OverrideInput) (r : OverrideRule),
      argmaxFirstRule (qualifyingRules input) = some r →
        r ∈ qualifyingRules input ∧
        (∀ x ∈ qualifyingRules input,
          gradeValue x.minimumGrade ≤ gradeValue r.minimumGrade) ∧
        (qualifyingRules input).find?
            (fun x => decide (gradeValue r.minimumGrade ≤ gradeValue x.minimumGrade))
          = some r ∧
        applyGradeOverride input =
          { originalGrade := input.grade, originalScore := input.score,
            finalGrade := r.minimumGrade,
            finalScore := max input.score (gradeMinScore r.minimumGrade),
            overrideApplied := true,
            overrideReason := some (r.name ++ ": " ++ r.reason),
            overrideType := some r.type }) ∧
    (applyGradeOverride scenarioBInput).finalGrade = Grade.Bp ∧
    (applyGradeOverride scenarioBInput).finalScore = 83 ∧
    (applyGradeOverride scenarioBInput).overrideReason
      = some "VELOCITY_CHAMPION: Fast velocity (≤7 days) with strong profit ≥$10" := by
  constructor
  · intro input r h
    refine ⟨?_, ?_, ?_, ?_⟩
    · rcases foldl_ruleMaxStep_mem _ none r h with h1 | h1
      · cases h1
      · exact h1
    · exact (foldl_ruleMaxStep_max _ none r h).1
    · rcases foldl_ruleMaxStep_first _ none r h with h1 | h1
      · cases h1
      · exact h1.2
    · have hb : findBestOverride input = some (mkBestOverride r) := by
        rw [findBestOverride_eq, h]; rfl
      simp [applyGradeOverride, hb, mkBestOverride]
  · refine ⟨?_, ?_, ?_⟩ <;>
      · norm_num [applyGradeOverride, findBestOverride, OVERRIDE_RULES, overrideStep,
          mkBestOverride, gradeValue, gradeMinScore, scenarioBInput, List.foldl]
        try rfl

/-- C4 witness: the selection theorem applied at Scenario B, where the
qualifying-rule scan concretely returns `VELOCITY_CHAMPION`. -/
theorem override_selects_highest_first_witness :
    applyGradeOverride scenarioBInput =
      { originalGrade := Grade.Dm, originalScore := 58,
        finalGrade := Grade.Bp, finalScore := 83,
        overrideApplied := true,
        overrideReason := some "VELOCITY_CHAMPION: Fast velocity (≤7 days) with strong profit ≥$10",
        overrideType := some "velocity" } := by
  have h : argmaxFirstRule (qualifyingRules scenarioBInput) = some velocityChampionRule := by
    norm_num [argmaxFirstRule, qualifyingRules, OVERRIDE_RULES, ruleApplies,
      ruleMaxStep, gradeValue, scenarioBInput, List.filter, List.foldl,
      velocityChampionRule]
  rw [(override_selects_highest_first.1 scenarioBInput velocityChampionRule h).2.2.2]
  norm_num [velocityChampionRule, gradeMinScore, scenarioBInput]
  rfl

/-- C5: the override engine never lowers the outcome — `finalScore ≥
originalScore` always, the final grade is never numerically worse than
the original, and when no rule qualifies both grade and score are
returned unchanged. -/
theorem override_monotone (input : OverrideInput) :
    (applyGradeOverride input).finalScore ≥ (applyGradeOverride input).originalScore ∧
    gradeValue (applyGradeOverride input).finalGrade ≥
      gradeValue (applyGradeOverride input).originalGrade ∧
    (qualifyingRules input = [] →
      (applyGradeOverride input).finalGrade = input.grade ∧
      (applyGradeOverride input).finalScore = input.score) := by
  cases h : argmaxFirstRule (qualifyingRules input) with
  | none =>
      have hb : findBestOverride input = none := by rw [findBestOverride_eq, h]; rfl
      simp [applyGradeOverride, hb]
  | some r =>
      have hb : findBestOverride input = some (mkBestOverride r) := by
        rw [findBestOverride_eq, h]; rfl
      have hmem : r ∈ qualifyingRules input := by
        rcases foldl_ruleMaxStep_mem _ none r h with h1 | h1
        · cases h1
        · exact h1
      have happ : ruleApplies input r = true :=
        (List.mem_filter.mp hmem).2
      have hgt : gradeValue r.minimumGrade > gradeValue input.grade :=
        of_decide_eq_true (Bool.and_elim_right happ)
      refine ⟨?_, ?_, ?_⟩
      · simp [applyGradeOverride, hb, mkBestOverride]
      · simp only [applyGradeOverride, hb, mkBestOverride]
        exact le_of_lt hgt
      · intro hnil
        rw [hnil] at h
        cases h

/-- C5 witness: the monotonicity theorem applied at a concrete input with
no qualifying rule — grade and score come back unchanged. -/
theorem override_monotone_witness :
    (applyGradeOverride noOverrideInput).finalGrade = Grade.Ap ∧
    (applyGradeOverride noOverrideInput).finalScore = 97 :=
  (override_monotone noOverrideInput).2.2
    (by norm_num [qualifyingRules, OVERRIDE_RULES, ruleApplies, gradeValue,
      noOverrideInput, List.filter])

/-- C6: with an AI estimate and eBay stats with listing count ≥ 10, the
fallback triangulation uses eBay weight 0.75 and dataQuality `high`,
first adjusts the eBay stats by min×0.8, avg×0.8, max×0.85, then takes
the weighted average per bound (rounded to cents) and reports
confidence `0.75 + 0.2 = 0.95`; Scenario D
(`ai={10,20,30}`, `ebay={avg:15,min:12,max:25,count:12}`) gives
adjusted stats `{9.6, 12, 21.25}` and final mid
`20×0.25 + 12×0.75 = 14.0`. -/
theorem triangulation_high_volume_blend :
    (∀ (ai : AiEstimate) (ebay : EbayData), ebay.listingCount ≥ 10 →
      (calculateFallbackTriangulation ai ebay).low
          = round2 (ai.low * 0.25 + ebay.minPrice * 0.8 * 0.75) ∧
      (calculateFallbackTriangulation ai ebay).mid
          = round2 (ai.mid * 0.25 + ebay.avgPrice * 0.8 * 0.75) ∧
      (calculateFallbackTriangulation ai ebay).high
          = round2 (ai.high * 0.25 + ebay.maxPrice * 0.85 * 0.75) ∧
      (calculateFallbackTriangulation ai ebay).confidence = 0.95 ∧
      (calculateFallbackTriangulation ai ebay).dataQuality = .high) ∧
    scenarioDEbay.minPrice * 0.8 = 9.6 ∧
    scenarioDEbay.avgPrice * 0.8 = 12 ∧
    scenarioDEbay.maxPrice * 0.85 = 21.25 ∧
    (calculateFallbackTriangulation scenarioDAi scenarioDEbay).mid = 14 := by
  constructor
  · intro ai ebay h
    rw [calculateFallbackTriangulation, if_pos h]
    refine ⟨?_, ?_, ?_, ?_, ?_⟩ <;> simp [blendTriangulation] <;> congr 1 <;> ring
  · refine ⟨by norm_num [scenarioDEbay], by norm_num [scenarioDEbay],
      by norm_num [scenarioDEbay], ?_⟩
    norm_num [scenarioDAi, scenarioDEbay, calculateFallbackTriangulation,
      blendTriangulation, round2, jsRound]

/-- C6 witness: the blending theorem applied at Scenario D's inputs
(listing count 12 ≥ 10). -/
theorem triangulation_high_volume_blend_witness :
    (calculateFallbackTriangulation scenarioDAi scenarioDEbay).confidence = 0.95 ∧
    (calculateFallbackTriangulation scenarioDAi scenarioDEbay).dataQuality = .high :=
  ⟨((triangulation_high_volume_blend.1 scenarioDAi scenarioDEbay
      (by norm_num [scenarioDEbay])).2.2.2).1,
   ((triangulation_high_volume_blend.1 scenarioDAi scenarioDEbay
      (by norm_num [scenarioDEbay])).2.2.2).2⟩

theorem round2_int_div_100 (m : ℤ) : round2 ((m : ℚ) / 100) = (m : ℚ) / 100 := by
  unfold round2 jsRound
  rw [div_mul_cancel₀ _ (by norm_num : (100 : ℚ) ≠ 0), add_comm, Int.floor_add_int]
  norm_num

theorem DEMAND_BASE_STR_cents (d : DemandLevel) : ∃ n : ℤ, DEMAND_BASE_STR d = (n : ℚ) / 100 := by
  cases d
  · exact ⟨65, by norm_num [DEMAND_BASE_STR]⟩
  · exact ⟨40, by norm_num [DEMAND_BASE_STR]⟩
  · exact ⟨20, by norm_num [DEMAND_BASE_STR]⟩

theorem densityAdjustment_cents (c : ℚ) : ∃ n : ℤ, (densityAdjustment c).1 = (n : ℚ) / 100 := by
  unfold densityAdjustment
  split_ifs
  · exact ⟨15, by norm_num⟩
  · exact ⟨10, by norm_num⟩
  · exact ⟨-15, by norm_num⟩
  · exact ⟨-10, by norm_num⟩
  · exact ⟨0, by norm_num⟩

theorem priceAdjustment_cents (a m : ℚ) : ∃ n : ℤ, (priceAdjustment a m).1 = (n : ℚ) / 100 := by
  unfold priceAdjustment
  by_cases hm : m > 0
  · simp only [if_pos hm]
    split_ifs
    · exact ⟨15, by norm_num⟩
    · exact ⟨8, by norm_num⟩
    · exact ⟨-12, by norm_num⟩
    · exact ⟨-5, by norm_num⟩
    · exact ⟨0, by norm_num⟩
  · simp only [if_neg hm]
    exact ⟨0, by norm_num⟩

theorem strClamped_cents (input : SellThroughInput) :
    ∃ n : ℤ, strClamped input = (n : ℚ) / 100 := by
  obtain ⟨a, ha⟩ := DEMAND_BASE_STR_cents input.demandLevel
  obtain ⟨b, hb⟩ := densityAdjustment_cents input.activeListingCount
  obtain ⟨c, hc⟩ := priceAdjustment_cents input.aiPriceEstimate input.ebayMedianPrice
  refine ⟨max 5 (min 95 (a + b + c)), ?_⟩
  have hraw : strRaw input = ((a + b + c : ℤ) : ℚ) / 100 := by
    rw [strRaw, ha, hb, hc]; push_cast; ring
  rw [strClamped, hraw]
  rw [show (0.05 : ℚ) = ((5 : ℤ) : ℚ) / 100 by norm_num,
    show (0.95 : ℚ) = ((95 : ℤ) : ℚ) / 100 by norm_num,
    min_div_div_right (by norm_num : (0:ℚ) ≤ 100),
    max_div_div_right (by norm_num : (0:ℚ) ≤ 100)]
  push_cast
  rfl

/-- The reported rate is the clamped rate itself: every reachable rate is
a whole number of cents, so the final 2-decimal rounding is the
identity. -/
theorem estimatedRate_eq_strClamped (input : SellThroughInput) :
    (estimateSellThroughRate input).estimatedRate = strClamped input := by
  obtain ⟨n, hn⟩ := strClamped_cents input
  show round2 (strClamped input) = strClamped input
  rw [hn, round2_int_div_100]

/-- C7: `estimateSellThroughRate` returns a rate clamped to
`[0.05, 0.95]` and days-to-sell clamped to `[1, 45]`, and classifies the
market from the final rate — sellers when `> 0.55`, balanced when in
`[0.35, 0.55]`, buyers when `< 0.35`; Scenario C (`high` demand, 3
active listings, aiMid 40, ebayMedian 60) gives rate
`0.65 + 0.15 + 0.15 = 0.95` (clamped) and a sellers market. -/
theorem sellThrough_clamped_classified :
    (∀ input : SellThroughInput,
      0.05 ≤ (estimateSellThroughRate input).estimatedRate ∧
      (estimateSellThroughRate input).estimatedRate ≤ 0.95 ∧
      1 ≤ (estimateSellThroughRate input).estimatedDaysToSell ∧
      (estimateSellThroughRate input).estimatedDaysToSell ≤ 45 ∧
      ((estimateSellThroughRate input).marketType = .sellers ↔
        (estimateSellThroughRate input).estimatedRate > 0.55) ∧
      ((estimateSellThroughRate input).marketType = .balanced ↔
        (0.35 ≤ (estimateSellThroughRate input).estimatedRate ∧
          (estimateSellThroughRate input).estimatedRate ≤ 0.55)) ∧
      ((estimateSellThroughRate input).marketType = .buyers ↔
        (estimateSellThroughRate input).estimatedRate < 0.35)) ∧
    (estimateSellThroughRate scenarioCInput).estimatedRate = 0.95 ∧
    (estimateSellThroughRate scenarioCInput).marketType = .sellers := by
  constructor
  · intro input
    have hrate := estimatedRate_eq_strClamped input
    have hlo : (0.05 : ℚ) ≤ strClamped input := le_max_left _ _
    have hhi : strClamped input ≤ 0.95 :=
      max_le (by norm_num) (min_le_left _ _)
    have hdays : (estimateSellThroughRate input).estimatedDaysToSell
        = jsRound (daysClamped input) := rfl
    have hd1 : (1 : ℚ) ≤ daysClamped input := le_max_left _ _
    have hd45 : daysClamped input ≤ 45 :=
      max_le (by norm_num) (min_le_left _ _)
    have hmt : (estimateSellThroughRate input).marketType
        = (if strClamped input > 0.55 then MarketType.sellers
           else if strClamped input ≥ 0.35 then MarketType.balanced
           else MarketType.buyers) := rfl
    refine ⟨by rw [hrate]; exact hlo, by rw [hrate]; exact hhi, ?_, ?_, ?_, ?_, ?_⟩
    · rw [hdays]
      unfold jsRound
      calc (1 : ℤ) = ⌊(3 : ℚ) / 2⌋ := by norm_num
        _ ≤ ⌊daysClamped input + 1/2⌋ := Int.floor_le_floor (by linarith)
    · rw [hdays]
      unfold jsRound
      calc ⌊daysClamped input + 1/2⌋ ≤ ⌊(91 : ℚ) / 2⌋ := Int.floor_le_floor (by linarith)
        _ = 45 := by norm_num
    · rw [hrate, hmt]
      split_ifs with h1 h2 <;> simp <;> linarith
    · rw [hrate, hmt]
      split_ifs with h1 h2 <;> simp <;> first | constructor <;> linarith | (intro h; linarith)
    · rw [hrate, hmt]
      split_ifs with h1 h2 <;> simp <;> linarith
  · constructor
    · norm_num [estimateSellThroughRate, strClamped, strRaw, DEMAND_BASE_STR,
        densityAdjustment, priceAdjustment, scenarioCInput, round2, jsRound]
    · norm_num [estimateSellThroughRate, strClamped, strRaw, DEMAND_BASE_STR,
        densityAdjustment, priceAdjustment, scenarioCInput]

/-- C8 counterexample: no tier meets the threshold here (tiers 1 and 2
return zero results, tier 3 throws), yet the function does NOT return
the Tier-3 result with its confidence halved (`0.7 × 0.5 = 0.35`): the
final re-run of the tier-3 query throws again, so the result is the
empty set with confidence `0.1`. -/
theorem searchWithFallback_claim_false :
    tryTiers cexSearchFn 3 "vintage red leather wallet" cexTiers = none ∧
    (searchWithFallback cexTiers cexSearchFn 3 "vintage red leather wallet").confidence = 0.1 ∧
    (0.1 : ℚ) ≠ 0.7 * 0.5 := by
  refine ⟨?_, ?_, by norm_num⟩
  · simp [tryTiers, cexSearchFn, cexTiers]
  · simp [searchWithFallback, tryTiers, cexSearchFn, cexTiers, List.getLastD]

/-- C8 (amended): `searchWithFallback` tries the tiers in order and
returns the first whose search succeeds with at least `minResults`
results, tagged `broadened = tier > 1`; a tier whose search call fails
is skipped; if no tier meets the threshold it re-runs the search on the
LAST generated tier (tier 3 when three tiers exist) and returns that
result with confidence × 0.5 and `broadened = true` — and if that final
call also fails (in particular when every tier failed) it returns the
empty result set with confidence 0.1. -/
theorem searchWithFallback_spec :
    (∀ (α : Type) (fn : SearchFn α) (minResults : ℕ) (q : BroadenResult)
        (rest : List BroadenResult) (oq : String) (rs : List α) (t : ℕ),
      fn q.query = .ok (rs, t) → rs.length ≥ minResults →
        searchWithFallback (q :: rest) fn minResults oq =
          { results := rs, total := t, usedQuery := q.query, originalQuery := oq,
            tier := q.tier, confidence := q.confidence,
            broadened := decide (q.tier > 1), strippedTerms := q.strippedTerms }) ∧
    (∀ (α : Type) (fn : SearchFn α) (minResults : ℕ) (oq : String)
        (q : BroadenResult) (rest : List BroadenResult),
      (fn q.query = .error () ∨ ∃ rs t, fn q.query = .ok (rs, t) ∧ rs.length < minResults) →
        tryTiers fn minResults oq (q :: rest) = tryTiers fn minResults oq rest) ∧
    (∀ (α : Type) (fn : SearchFn α) (minResults : ℕ) (oq : String)
        (queries : List BroadenResult) (q : BroadenResult),
      tryTiers fn minResults oq queries = none →
      queries.getLast? = some q →
        searchWithFallback queries fn minResults oq =
          (match fn q.query with
           | .ok (rs, t) =>
              { results := rs, total := t, usedQuery := q.query, originalQuery := oq,
                tier := q.tier, confidence := q.confidence * 0.5, broadened := true,
                strippedTerms := q.strippedTerms }
           | .error _ =>
              { results := [], total := 0, usedQuery := q.query, originalQuery := oq,
                tier := q.tier, confidence := 0.1, broadened := true,
                strippedTerms := q.strippedTerms })) := by
  refine ⟨?_, ?_, ?_⟩
  · intro α fn minResults q rest oq rs t hok hlen
    simp [searchWithFallback, tryTiers, hok, hlen]
  · intro α fn minResults oq q rest h
    rcases h with herr | ⟨rs, t, hok, hlt⟩
    · simp [tryTiers, herr]
    · simp [tryTiers, hok, Nat.not_le.mpr hlt]
  · intro α fn minResults oq queries q hnone hlast
    have hd : queries.getLastD
        { query := oq, tier := 1, confidence := 1, strippedTerms := [] } = q := by
      rw [List.getLastD_eq_getLast?, hlast]; rfl
    cases hq : fn q.query with
    | ok p =>
        cases p with
        | mk rs t => simp [searchWithFallback, hnone, hlast, hq]
    | error e => simp [searchWithFallback, hnone, hlast, hq]

/-- C8 witness: the characterization applied at concrete inputs — a
single-tier list whose search returns three results meets the default
threshold and is returned unbroadened. -/
theorem searchWithFallback_spec_witness :
    searchWithFallback
        [{ query := "q1", tier := 1, confidence := 1, strippedTerms := [] }]
        (fun _ => Except.ok ([1, 2, 3], 3) : SearchFn ℕ) 3 "q1" =
      { results := [1, 2, 3], total := 3, usedQuery := "q1", originalQuery := "q1",
        tier := 1, confidence := 1, broadened := false, strippedTerms := [] } := by
  have h := searchWithFallback_spec.1 ℕ (fun _ => Except.ok ([1, 2, 3], 3)) 3
    { query := "q1", tier := 1, confidence := 1, strippedTerms := [] } [] "q1"
    [1, 2, 3] 3 rfl (by norm_num)
  simpa using h

/-- C9 counterexample: `calculatePriceVolatility` guards only the
short-list case, not the zero-mean denominator: on the sold-price list
`[0, 0]` (two listings that sold for $0) the mean is 0 and the final
`stdDev / mean` division is reached with a zero denominator — the
JavaScript source produces `NaN` here (`none` in the embedding), for any
square-root function. -/
theorem priceVolatility_nan_on_zero_mean :
    calculatePriceVolatility (fun q => q) [0, 0] = none := by
  norm_num [calculatePriceVolatility, safeDiv]

/-- C9 (amended): every ratio of the pipeline except `priceVolatility` —
sell-through rate, price-position ratio, effective margin, ROI, gross
margin, price spread, supply ratio and the two trend ratios — checks its
denominator before dividing and substitutes the source's neutral value
when the check fails, so none of them can produce `NaN`/`Infinity`;
`calculatePriceVolatility` however guards only lists shorter than 2, and
its `stdDev / mean` division is defined exactly when the price list is
short or has nonzero sum (nonzero mean). -/
theorem division_guards :
    (∀ sold active : ℚ, strRatioChecked sold active
        = some (calculateSellThroughRate sold active)) ∧
    (∀ a m : ℚ, (priceRatioChecked a m).isSome = true) ∧
    (∀ np sp : ℚ, (marginChecked np sp).isSome = true) ∧
    (∀ np ti : ℚ, (roiChecked np ti).isSome = true) ∧
    (∀ np esp : ℚ, (grossMarginChecked np esp).isSome = true) ∧
    (∀ m : MarketSummary, stabilitySpreadChecked m = some (stabilitySpread m)) ∧
    (∀ m : MarketSummary, stabilitySupplyRatioChecked m = some (stabilitySupplyRatio m)) ∧
    (∀ m : MarketSummary, trendVolumeRatioChecked m = some (trendVolumeRatio m)) ∧
    (∀ m : MarketSummary, trendPriceRatioChecked m = some (trendPriceRatio m)) ∧
    (∀ (sqrtFn : ℚ → ℚ) (prices : List ℚ),
      (calculatePriceVolatility sqrtFn prices).isSome = true ↔
        (prices.length < 2 ∨ prices.sum ≠ 0)) := by
  refine ⟨?_, ?_, ?_, ?_, ?_, ?_, ?_, ?_, ?_, ?_⟩
  · intro sold active
    by_cases h : sold + active = 0
    · simp [strRatioChecked, calculateSellThroughRate, h]
    · simp [strRatioChecked, calculateSellThroughRate, safeDiv, h]
  · intro a m
    by_cases h : m > 0
    · simp [priceRatioChecked, safeDiv, h, ne_of_gt h]
    · simp [priceRatioChecked, h]
  · intro np sp
    by_cases h : sp > 0
    · simp [marginChecked, safeDiv, h, ne_of_gt h]
    · simp [marginChecked, h]
  · intro np ti
    by_cases h : ti > 0
    · simp [roiChecked, safeDiv, h, ne_of_gt h]
    · simp [roiChecked, h]
  · intro np esp
    by_cases h : esp > 0
    · simp [grossMarginChecked, safeDiv, h, ne_of_gt h]
    · simp [grossMarginChecked, h]
  · intro m
    by_cases h : m.medianSoldPrice > 0
    · simp [stabilitySpreadChecked, stabilitySpread, safeDiv, h, ne_of_gt h]
    · simp [stabilitySpreadChecked, stabilitySpread, h]
  · intro m
    by_cases h : m.totalSold30Days > 0
    · simp [stabilitySupplyRatioChecked, stabilitySupplyRatio, safeDiv, h, ne_of_gt h]
    · simp [stabilitySupplyRatioChecked, stabilitySupplyRatio, h]
  · intro m
    by_cases h : m.totalSold90Days / 3 > 0
    · simp [trendVolumeRatioChecked, trendVolumeRatio, safeDiv, h, ne_of_gt h]
    · simp [trendVolumeRatioChecked, trendVolumeRatio, h]
  · intro m
    by_cases h : m.avgSoldPrice > 0
    · simp [trendPriceRatioChecked, trendPriceRatio, safeDiv, h, ne_of_gt h]
    · simp [trendPriceRatioChecked, trendPriceRatio, h]
  · intro sqrtFn prices
    by_cases hl : prices.length < 2
    · simp [calculatePriceVolatility, hl]
    · have hlen : ((prices.length : ℚ)) ≠ 0 := by
        have h2 : 2 ≤ prices.length := Nat.not_lt.mp hl
        exact_mod_cast Nat.cast_ne_zero.mpr (by omega)
      by_cases hs : prices.sum = 0
      · simp [calculatePriceVolatility, hl, hs, safeDiv, hlen]
      · have hmean : prices.sum / (prices.length : ℚ) ≠ 0 := div_ne_zero hs hlen
        simp [calculatePriceVolatility, hl, hs, safeDiv, hmean]

theorem equityMarginScore_bounds (q : ℚ) :
    0 ≤ equityMarginScore q ∧ equityMarginScore q ≤ 50 := by
  unfold equityMarginScore; split_ifs <;> norm_num

theorem equityRoiScore_bounds (q : ℚ) :
    0 ≤ equityRoiScore q ∧ equityRoiScore q ≤ 30 := by
  unfold equityRoiScore; split_ifs <;> norm_num

theorem equityDollarScore_bounds (q : ℚ) :
    0 ≤ equityDollarScore q ∧ equityDollarScore q ≤ 20 := by
  unfold equityDollarScore; split_ifs <;> norm_num

theorem equityNormalized_bounds (m : MarketSummary) (i : VestInput) :
    0 ≤ (calculateEquity m i).normalized ∧ (calculateEquity m i).normalized ≤ 100 := by
  have h : (calculateEquity m i).normalized
      = equityMarginScore (if m.medianSoldPrice > 0
          then (m.medianSoldPrice - (i.buyPrice + i.shippingCost.getD 5)
              - m.medianSoldPrice * i.estimatedFees.getD 0.13) / m.medianSoldPrice else 0)
        + equityRoiScore (if i.buyPrice + i.shippingCost.getD 5 > 0
          then (m.medianSoldPrice - (i.buyPrice + i.shippingCost.getD 5)
              - m.medianSoldPrice * i.estimatedFees.getD 0.13)
            / (i.buyPrice + i.shippingCost.getD 5) * 100 else 0)
        + equityDollarScore (m.medianSoldPrice - (i.buyPrice + i.shippingCost.getD 5)
            - m.medianSoldPrice * i.estimatedFees.getD 0.13) := rfl
  rw [h]
  obtain ⟨a1, a2⟩ := equityMarginScore_bounds (if m.medianSoldPrice > 0
    then (m.medianSoldPrice - (i.buyPrice + i.shippingCost.getD 5)
        - m.medianSoldPrice * i.estimatedFees.getD 0.13) / m.medianSoldPrice else 0)
  obtain ⟨b1, b2⟩ := equityRoiScore_bounds (if i.buyPrice + i.shippingCost.getD 5 > 0
    then (m.medianSoldPrice - (i.buyPrice + i.shippingCost.getD 5)
        - m.medianSoldPrice * i.estimatedFees.getD 0.13)
      / (i.buyPrice + i.shippingCost.getD 5) * 100 else 0)
  obtain ⟨c1, c2⟩ := equityDollarScore_bounds (m.medianSoldPrice
    - (i.buyPrice + i.shippingCost.getD 5) - m.medianSoldPrice * i.estimatedFees.getD 0.13)
  constructor <;> linarith

theorem velocityDaysScore_bounds (m : MarketSummary) :
    5 ≤ velocityDaysScore m ∧ velocityDaysScore m ≤ 30 := by
  unfold velocityDaysScore; split_ifs <;> norm_num

theorem velocityStrScore_bounds (m : MarketSummary) :
    5 ≤ velocityStrScore m ∧ velocityStrScore m ≤ 30 := by
  unfold velocityStrScore; split_ifs <;> norm_num

theorem velocityNormalized_bounds (m : MarketSummary) (h : 0 ≤ m.totalSold30Days) :
    0 ≤ (calculateVelocity m).normalized ∧ (calculateVelocity m).normalized ≤ 100 := by
  have hv : (calculateVelocity m).normalized
      = velocityVolumeScore m + velocityDaysScore m + velocityStrScore m := rfl
  have h1 : 0 ≤ velocityVolumeScore m :=
    le_min (by norm_num) (by positivity)
  have h2 : velocityVolumeScore m ≤ 40 := min_le_left _ _
  obtain ⟨d1, d2⟩ := velocityDaysScore_bounds m
  obtain ⟨s1, s2⟩ := velocityStrScore_bounds m
  rw [hv]
  constructor <;> linarith

theorem stabilityNormalized_bounds (m : MarketSummary) :
    0 ≤ (calculateStability m).normalized ∧ (calculateStability m).normalized ≤ 100 := by
  have hs : (calculateStability m).normalized
      = stabilityVolatilityScore m + stabilitySpreadScore m + stabilitySupplyScore m := rfl
  have h1 : 10 ≤ stabilityVolatilityScore m ∧ stabilityVolatilityScore m ≤ 50 := by
    unfold stabilityVolatilityScore; split_ifs <;> norm_num
  have h2 : 5 ≤ stabilitySpreadScore m ∧ stabilitySpreadScore m ≤ 30 := by
    unfold stabilitySpreadScore; dsimp only; split_ifs <;> norm_num
  have h3 : 5 ≤ stabilitySupplyScore m ∧ stabilitySupplyScore m ≤ 20 := by
    unfold stabilitySupplyScore; dsimp only; split_ifs <;> norm_num
  rw [hs]
  obtain ⟨a1, a2⟩ := h1; obtain ⟨b1, b2⟩ := h2; obtain ⟨c1, c2⟩ := h3
  constructor <;> linarith

theorem trendNormalized_bounds (m : MarketSummary) :
    0 ≤ (calculateTrend m).normalized ∧ (calculateTrend m).normalized ≤ 100 := by
  have ht : (calculateTrend m).normalized = trendVolumeScore m + trendPriceScore m := rfl
  have h1 : 5 ≤ trendVolumeScore m ∧ trendVolumeScore m ≤ 50 := by
    unfold trendVolumeScore; dsimp only; split_ifs <;> norm_num
  have h2 : 5 ≤ trendPriceScore m ∧ trendPriceScore m ≤ 50 := by
    unfold trendPriceScore; dsimp only; split_ifs <;> norm_num
  rw [ht]
  obtain ⟨a1, a2⟩ := h1; obtain ⟨b1, b2⟩ := h2
  constructor <;> linarith

theorem vestRawTotal_bounds (m : MarketSummary) (buyPrice shippingCost : ℚ)
    (h : 0 ≤ m.totalSold30Days) :
    0 ≤ vestRawTotal m buyPrice shippingCost ∧ vestRawTotal m buyPrice shippingCost ≤ 100 := by
  obtain ⟨v1, v2⟩ := velocityNormalized_bounds m h
  obtain ⟨e1, e2⟩ := equityNormalized_bounds m
    { buyPrice := buyPrice, shippingCost := some shippingCost }
  obtain ⟨s1, s2⟩ := stabilityNormalized_bounds m
  obtain ⟨t1, t2⟩ := trendNormalized_bounds m
  have hv : (calculateVelocity m).weighted = (calculateVelocity m).normalized * 0.40 := rfl
  have he : (calculateEquity m { buyPrice := buyPrice, shippingCost := some shippingCost }).weighted
      = (calculateEquity m { buyPrice := buyPrice, shippingCost := some shippingCost }).normalized * 0.40 := rfl
  have hs : (calculateStability m).weighted = (calculateStability m).normalized * 0.10 := rfl
  have ht : (calculateTrend m).weighted = (calculateTrend m).normalized * 0.10 := rfl
  unfold vestRawTotal
  rw [hv, he, hs, ht]
  constructor <;> nlinarith

theorem gradeMinScore_le_95 (g : Grade) : gradeMinScore g ≤ 95 := by
  cases g <;> norm_num [gradeMinScore]

theorem applyGradeOverride_score_bounds (input : OverrideInput)
    (h0 : 0 ≤ input.score) (h100 : input.score ≤ 100) :
    0 ≤ (applyGradeOverride input).finalScore ∧
    (applyGradeOverride input).finalScore ≤ 100 := by
  cases h : findBestOverride input with
  | none => simp [applyGradeOverride, h]; constructor <;> linarith
  | some b =>
      simp only [applyGradeOverride, h]
      constructor
      · exact le_trans h0 (le_max_left _ _)
      · exact max_le h100 (le_trans (gradeMinScore_le_95 b.grade) (by norm_num))

theorem round1_bounds (x : ℚ) (h0 : 0 ≤ x) (h100 : x ≤ 100) :
    0 ≤ round1 x ∧ round1 x ≤ 100 := by
  unfold round1 jsRound
  constructor
  · have : (0 : ℤ) ≤ ⌊x * 10 + 1/2⌋ := by
      calc (0 : ℤ) = ⌊(1 : ℚ)/2⌋ := by norm_num
        _ ≤ ⌊x * 10 + 1/2⌋ := Int.floor_le_floor (by linarith)
    have h' : (0 : ℚ) ≤ (⌊x * 10 + 1/2⌋ : ℚ) := by exact_mod_cast this
    positivity
  · have : ⌊x * 10 + 1/2⌋ ≤ (1000 : ℤ) := by
      calc ⌊x * 10 + 1/2⌋ ≤ ⌊(2001 : ℚ)/2⌋ := Int.floor_le_floor (by linarith)
        _ = 1000 := by norm_num
    have h' : ((⌊x * 10 + 1/2⌋ : ℤ) : ℚ) ≤ 1000 := by exact_mod_cast this
    linarith

/-- C10: the four V.E.S.T. component weights (0.40/0.40/0.10/0.10) sum
to exactly 1, and for every market summary (with its non-negative
30-day sales count) and buy price the score lies in `[0, 100]` both
before the override (the raw weighted total) and after it (the reported
final score). -/
theorem vest_weights_and_bounds :
    (∀ (m : MarketSummary) (input : VestInput),
      (calculateVelocity m).weight + (calculateEquity m input).weight
        + (calculateStability m).weight + (calculateTrend m).weight = 1) ∧
    (∀ (market : MarketData) (input : VestInput),
      0 ≤ market.summary.totalSold30Days →
        0 ≤ vestRawTotal market.summary input.buyPrice (input.shippingCost.getD 5) ∧
        vestRawTotal market.summary input.buyPrice (input.shippingCost.getD 5) ≤ 100 ∧
        0 ≤ (calculateVestScore market input).total ∧
        (calculateVestScore market input).total ≤ 100) := by
  constructor
  · intro m input
    norm_num [calculateVelocity, calculateEquity, calculateStability, calculateTrend]
  · intro market input h
    obtain ⟨hr0, hr1⟩ :=
      vestRawTotal_bounds market.summary input.buyPrice (input.shippingCost.getD 5) h
    have htot : (calculateVestScore market input).total
        = round1 ((applyGradeOverride
            { score := vestRawTotal market.summary input.buyPrice (input.shippingCost.getD 5),
              grade := scoreToGrade
                (vestRawTotal market.summary input.buyPrice (input.shippingCost.getD 5)),
              daysToSell := market.summary.avgDaysToSell,
              netProfit := (calculateNetProfit
                { expectedSalePrice := market.summary.medianSoldPrice,
                  buyPrice := input.buyPrice,
                  shippingCost := some (input.shippingCost.getD 5) }).netProfit,
              grossMargin := (calculateNetProfit
                { expectedSalePrice := market.summary.medianSoldPrice,
                  buyPrice := input.buyPrice,
                  shippingCost := some (input.shippingCost.getD 5) }).effectiveMargin / 100,
              sellThroughRate := market.summary.sellThroughRate }).finalScore) := rfl
    have hb := applyGradeOverride_score_bounds
      { score := vestRawTotal market.summary input.buyPrice (input.shippingCost.getD 5),
        grade := scoreToGrade
          (vestRawTotal market.summary input.buyPrice (input.shippingCost.getD 5)),
        daysToSell := market.summary.avgDaysToSell,
        netProfit := (calculateNetProfit
          { expectedSalePrice := market.summary.medianSoldPrice,
            buyPrice := input.buyPrice,
            shippingCost := some (input.shippingCost.getD 5) }).netProfit,
        grossMargin := (calculateNetProfit
          { expectedSalePrice := market.summary.medianSoldPrice,
            buyPrice := input.buyPrice,
            shippingCost := some (input.shippingCost.getD 5) }).effectiveMargin / 100,
        sellThroughRate := market.summary.sellThroughRate }
      hr0 hr1
    obtain ⟨t0, t1⟩ := round1_bounds _ hb.1 hb.2
    exact ⟨hr0, hr1, by rw [htot]; exact t0, by rw [htot]; exact t1⟩

/-- C10 witness: the bounds theorem applied on `slowMarket` (whose
30-day sales count 0 is non-negative) at buy price 0. -/
theorem vest_weights_and_bounds_witness :
    0 ≤ (calculateVestScore slowMarket { buyPrice := 0 }).total ∧
    (calculateVestScore slowMarket { buyPrice := 0 }).total ≤ 100 :=
  ⟨(vest_weights_and_bounds.2 slowMarket { buyPrice := 0 }
      (by norm_num [slowMarket])).2.2.1,
   (vest_weights_and_bounds.2 slowMarket { buyPrice := 0 }
      (by norm_num [slowMarket])).2.2.2⟩
